import Mathlib

/-!
Verification of the storage layer of `lesstinydb` (`src/tinydb/storages.py`).

The source defines an abstract base class `Storage` owning a boolean
`_in_transaction` flag and the generic operations `begin`, `commit`,
`rollback`, the scoped helper `transaction`, and `__enter__`/`__exit__`;
plus two concrete backends: `JSONStorage` (a JSON-serialized snapshot in a
single file, with a `.lock` companion file for mutual exclusion and a
`.backup` companion file for rollback) and `MemoryStorage` (an in-process
snapshot with a deep-copied backup).

Embedding conventions:
* Python exceptions leave their side effects in place, so every stateful
  operation returns an `Outcome σ`: the new state together with either
  normal completion or a raised exception.
* JSON-compatible values are the inductive `JValue`.  `json.dumps` followed
  by `json.loads` is structurally the identity on such values, so the
  deep-copy-by-serialization in `MemoryStorage._begin_transaction` is
  modelled as a plain value copy; Python objects that `json.dumps` rejects
  (sets, custom classes, ...) are the `PyObj.nonJson` constructor.
* The JSON file of `JSONStorage` is abstracted by `FileContent`: a string
  is either empty (zero bytes), the serialization of some JSON value
  (always a non-empty string), or non-empty text that is not valid JSON
  (`malformed`, tagged so that distinct corrupt contents stay distinct).
  Every `read`/`write` in the source seeks before acting, so the handle
  position carries no information and only the content is modelled.
  The access mode is modelled by the `canWrite` flag distinguishing the
  read-only mode `'r'` from the default read-write mode `'r+'`.
-/

/-- JSON-compatible values: the payloads `json.dumps` accepts and
`json.loads` produces.  Numeric literals are abstracted to `Int`; no claim
depends on the numeric representation. -/
inductive JValue where
  | null
  | bool (b : Bool)
  | num (n : Int)
  | str (s : String)
  | arr (elems : List JValue)
  | obj (fields : List (String × JValue))

/-- A Python object handed to `write`: either JSON-serializable or an
object on which `json.dumps` raises `TypeError` (identified by a tag). -/
inductive PyObj where
  | jv (v : JValue)
  | nonJson (tag : Nat)

/-- The exceptions the modelled code can raise. -/
inductive Exc where
  | runtimeError (msg : String)
  | ioError (msg : String)
  | jsonDecodeError
  | typeError
  | userError (code : Nat)

/-- Result of a Python statement acting on state `σ`: the state after the
statement, with either normal completion (`ok`) or an exception
propagating (`raised`).  An exception does not undo side effects. -/
inductive Outcome (σ : Type) where
  | ok (s : σ)
  | raised (e : Exc) (s : σ)

/-- The state carried by an outcome, whether or not an exception is
propagating. -/
def Outcome.state {σ : Type} : Outcome σ → σ
  | .ok s => s
  | .raised _ s => s

/-- The exception carried by an outcome, if any. -/
def Outcome.exc {σ : Type} : Outcome σ → Option Exc
  | .ok _ => none
  | .raised e _ => some e

/-- The abstract base class `Storage`, shallowly embedded as a record of
its state accessors and its abstract backend hooks over a state type `σ`:
`inTransaction`/`setInTransaction` model the `_in_transaction` attribute,
and the three hooks model `_begin_transaction`, `_commit_transaction` and
`_rollback_transaction`, each of which may raise. -/
structure Storage (σ : Type) where
  inTransaction : σ → Bool
  setInTransaction : Bool → σ → σ
  beginTransaction : σ → Outcome σ
  commitTransaction : σ → Outcome σ
  rollbackTransaction : σ → Outcome σ

/-- `Storage.begin`: raise `RuntimeError` if already in a transaction,
otherwise set the flag and run the backend start hook.  There is no
`try/finally` here: if the hook raises, the flag stays set. -/
def Storage.begin {σ : Type} (st : Storage σ) (s : σ) : Outcome σ :=
  if st.inTransaction s then
    .raised (.runtimeError "Transaction already in progress") s
  else
    st.beginTransaction (st.setInTransaction true s)

/-- `Storage.commit`: raise `RuntimeError` if no transaction is open,
otherwise run the backend commit hook with the flag cleared in a `finally`
block, whether or not the hook raises. -/
def Storage.commit {σ : Type} (st : Storage σ) (s : σ) : Outcome σ :=
  if st.inTransaction s then
    match st.commitTransaction s with
    | .ok s1 => .ok (st.setInTransaction false s1)
    | .raised e s1 => .raised e (st.setInTransaction false s1)
  else
    .raised (.runtimeError "No transaction in progress") s

/-- `Storage.rollback`: raise `RuntimeError` if no transaction is open,
otherwise run the backend rollback hook with the flag cleared in a
`finally` block, whether or not the hook raises. -/
def Storage.rollback {σ : Type} (st : Storage σ) (s : σ) : Outcome σ :=
  if st.inTransaction s then
    match st.rollbackTransaction s with
    | .ok s1 => .ok (st.setInTransaction false s1)
    | .raised e s1 => .raised e (st.setInTransaction false s1)
  else
    .raised (.runtimeError "No transaction in progress") s

/-- The scoped helper `Storage.transaction`, a `@contextmanager` generator:
`begin()` (outside the `try`, so its exceptions propagate directly), then
`try: <body>; commit() except: rollback(); raise`.  The bare `except`
catches exceptions of the body and of `commit` alike; the final `raise`
re-raises the caught exception, but only if `rollback()` itself returned
normally — an exception raised by `rollback()` propagates instead. -/
def Storage.transaction {σ : Type} (st : Storage σ) (body : σ → Outcome σ)
    (s : σ) : Outcome σ :=
  match st.begin s with
  | .raised e s1 => .raised e s1
  | .ok s1 =>
    match (match body s1 with
           | .ok s2 => st.commit s2
           | .raised e s2 => .raised e s2) with
    | .ok s3 => .ok s3
    | .raised e s3 =>
      match st.rollback s3 with
      | .ok s4 => .raised e s4
      | .raised e2 s4 => .raised e2 s4

/-- `Storage.__enter__` calls `self.transaction()` — building a fresh
generator-backed context manager — and enters it, which runs the generator
up to its `yield`: that is, it executes `self.begin()` and suspends. -/
def Storage.enter {σ : Type} (st : Storage σ) (s : σ) : Outcome σ :=
  st.begin s

/-- `Storage.__exit__` with no exception pending calls `self.transaction()`
again, building a second, never-entered context manager, and invokes
`__exit__(None, None, None)` on it.  `contextlib` then advances the fresh
generator from its start: `self.begin()` runs (and any exception it raises
propagates); were `begin` to succeed, the generator would suspend at
`yield` and `contextlib` would raise `RuntimeError` because the generator
did not stop. -/
def Storage.exitNone {σ : Type} (st : Storage σ) (s : σ) : Outcome σ :=
  match st.begin s with
  | .raised e s1 => .raised e s1
  | .ok s1 => .raised (.runtimeError "generator did not stop") s1

/-- Whether `json.dumps` succeeds on a Python object. -/
def PyObj.dumpsOk : PyObj → Bool
  | .jv _ => true
  | .nonJson _ => false

/-- The mutable attributes of a `MemoryStorage` instance: `memory` (the
current snapshot or `None`), `_backup` (the rollback copy or `None`), and
the inherited `_in_transaction` flag. -/
structure MemState where
  memory : Option PyObj
  backup : Option PyObj
  inTransaction : Bool

/-- `MemoryStorage.read`: `return self.memory`. -/
def MemState.read (s : MemState) : Option PyObj :=
  s.memory

/-- `MemoryStorage.write`: `self.memory = data`. -/
def MemState.write (data : PyObj) (s : MemState) : MemState :=
  { s with memory := some data }

/-- `MemoryStorage._begin_transaction`:
`self._backup = json.loads(json.dumps(self.memory)) if self.memory is not
None else None`.  For a JSON-serializable value the serialization
round-trip is structurally the identity, so the deep copy is a value copy;
`json.dumps` raises `TypeError` on a non-serializable object, leaving the
backup untouched. -/
def memBeginTransaction (s : MemState) : Outcome MemState :=
  match s.memory with
  | none => .ok { s with backup := none }
  | some o =>
    if o.dumpsOk then .ok { s with backup := some o }
    else .raised .typeError s

/-- `MemoryStorage._commit_transaction`: `self._backup = None`. -/
def memCommitTransaction (s : MemState) : Outcome MemState :=
  .ok { s with backup := none }

/-- `MemoryStorage._rollback_transaction`:
`self.memory = self._backup; self._backup = None`. -/
def memRollbackTransaction (s : MemState) : Outcome MemState :=
  .ok { s with memory := s.backup, backup := none }

/-- The `MemoryStorage` subclass as an instance of the `Storage` record. -/
def memoryStorage : Storage MemState where
  inTransaction s := s.inTransaction
  setInTransaction b s := { s with inTransaction := b }
  beginTransaction := memBeginTransaction
  commitTransaction := memCommitTransaction
  rollbackTransaction := memRollbackTransaction

/-- Abstraction of the text stored in a file: `empty` is the zero-byte
string, `jsonText v` any string that `json.loads` parses as `v` (such a
string is never empty: even `null` serializes to four bytes), and
`malformed t` a non-empty string that is not valid JSON (the tag keeps
distinct corrupt contents distinct, so copying is faithful). -/
inductive FileContent where
  | empty
  | jsonText (v : JValue)
  | malformed (tag : Nat)

/-- The mutable attributes of a `JSONStorage` instance: the content of the
database file at `self.path`, the companion `.backup` file (present or
absent, with its content), whether the `.lock` file's advisory lock is
held, whether the access mode permits writing (`'r+'`, the default, versus
the read-only `'r'`), and the inherited `_in_transaction` flag. -/
structure FileState where
  content : FileContent
  backupFile : Option FileContent
  lockHeld : Bool
  canWrite : Bool
  inTransaction : Bool

/-- The Python value `json.load` hands back for a parsed document `v`: a
top-level JSON `null` comes back as the object `None`, which the caller of
`read` cannot tell apart from the absent marker. -/
def topLevelPy : JValue → Option JValue
  | .null => none
  | .bool b => some (.bool b)
  | .num n => some (.num n)
  | .str s => some (.str s)
  | .arr xs => some (.arr xs)
  | .obj fs => some (.obj fs)

/-- `JSONStorage.read`: seek to the end to learn the size; a zero size
returns `None`; otherwise seek to the start and `json.load` the handle,
which raises `json.JSONDecodeError` on malformed content. -/
def fileRead (s : FileState) : Except Exc (Option JValue) :=
  match s.content with
  | .empty => .ok none
  | .jsonText v => .ok (topLevelPy v)
  | .malformed _ => .error .jsonDecodeError

/-- `JSONStorage.write`: seek to the start, `json.dumps(data)` (raising
`TypeError` on a non-serializable object, before the file is touched),
write the serialization — on a read-only handle the write raises
`io.UnsupportedOperation`, re-raised as `IOError`, with the file untouched
— then flush, `os.fsync`, and truncate at the current position, so the
file holds exactly the new serialization even when the previous content
was longer. -/
def fileWrite (data : PyObj) (s : FileState) : Outcome FileState :=
  match data with
  | .nonJson _ => .raised .typeError s
  | .jv v =>
    if s.canWrite then .ok { s with content := .jsonText v }
    else .raised (.ioError "Cannot write to the database") s

/-- `JSONStorage._begin_transaction`: acquire the exclusive lock on the
`.lock` file, then copy the database file's current content verbatim into
the `.backup` file (creating it). -/
def fileBeginTransaction (s : FileState) : Outcome FileState :=
  .ok { s with lockHeld := true, backupFile := some s.content }

/-- `JSONStorage._commit_transaction`: flush and `os.fsync` the handle,
delete the `.backup` file if present, release the lock. -/
def fileCommitTransaction (s : FileState) : Outcome FileState :=
  .ok { s with backupFile := none, lockHeld := false }

/-- `JSONStorage._rollback_transaction`: `try`: close the handle, read the
`.backup` file (raising `FileNotFoundError` if it is absent), rewrite the
database file with that content (`open(..., 'w')` truncates then writes),
reopen the handle; `finally`: delete the `.backup` file if present and
release the lock. -/
def fileRollbackTransaction (s : FileState) : Outcome FileState :=
  match s.backupFile with
  | some c => .ok { s with content := c, backupFile := none, lockHeld := false }
  | none =>
    .raised (.ioError "No such file or directory")
      { s with backupFile := none, lockHeld := false }

/-- The `JSONStorage` subclass as an instance of the `Storage` record. -/
def jsonStorage : Storage FileState where
  inTransaction s := s.inTransaction
  setInTransaction b s := { s with inTransaction := b }
  beginTransaction := fileBeginTransaction
  commitTransaction := fileCommitTransaction
  rollbackTransaction := fileRollbackTransaction

/-- A record in the data model: a mapping from string keys to
JSON-compatible values. -/
def isRecord : JValue → Bool
  | .obj _ => true
  | _ => false

/-- A table in the data model: a mapping from record-id strings to
records. -/
def isTable : JValue → Bool
  | .obj recs => recs.all fun r => isRecord r.2
  | _ => false

/-- A snapshot in the data model: a mapping from table-name strings to
tables. -/
def isSnapshot : JValue → Bool
  | .obj tables => tables.all fun t => isTable t.2
  | _ => false

/-- A sequence of `write` calls on a `MemoryStorage`, each applied to the
state the previous one left behind. -/
def applyMemWrites (ds : List PyObj) (s : MemState) : MemState :=
  ds.foldl (fun t d => MemState.write d t) s

/-- A sequence of `write` calls on a `JSONStorage`, each applied to the
state the previous one left behind whether or not it raised (an exception
from one write leaves its state in place for the next). -/
def applyFileWrites (ds : List PyObj) (s : FileState) : FileState :=
  ds.foldl (fun t d => (fileWrite d t).state) s

/-- A legal implementation of the abstract `Storage` contract whose backend
commit hook raises an I/O fault (the spec's §7 contemplates exactly this
for `_commit_transaction`: flush, fsync or file deletion failing).  All
other behaviour is that of `MemoryStorage`. -/
def failingCommitStorage : Storage MemState :=
  { memoryStorage with commitTransaction := fun s => .raised (.ioError "disk error") s }

/-- A freshly opened `JSONStorage` in the default mode over a file whose
content is the four-byte string `null` — a non-empty, well-formed JSON
document. -/
def nullFile : FileState :=
  ⟨.jsonText .null, none, false, true, false⟩

/-! ## Helper lemmas -/

/-- `MemoryStorage.write` only touches `memory`. -/
theorem memWrite_backup (d : PyObj) (t : MemState) :
    (MemState.write d t).backup = t.backup := rfl

/-- `MemoryStorage.write` does not touch the transaction flag. -/
theorem memWrite_flag (d : PyObj) (t : MemState) :
    (MemState.write d t).inTransaction = t.inTransaction := rfl

/-- A sequence of memory writes leaves the backup unchanged. -/
theorem applyMemWrites_backup (ds : List PyObj) :
    ∀ s : MemState, (applyMemWrites ds s).backup = s.backup := by
  induction ds with
  | nil => intro s; rfl
  | cons d ds ih => intro s; exact ih (MemState.write d s)

/-- A sequence of memory writes leaves the transaction flag unchanged. -/
theorem applyMemWrites_flag (ds : List PyObj) :
    ∀ s : MemState, (applyMemWrites ds s).inTransaction = s.inTransaction := by
  induction ds with
  | nil => intro s; rfl
  | cons d ds ih => intro s; exact ih (MemState.write d s)

/-- `JSONStorage.write` touches at most the file content: backup file,
lock and flag are unchanged whether the write succeeds or raises. -/
theorem fileWrite_state_fields (d : PyObj) (t : FileState) :
    ((fileWrite d t).state).backupFile = t.backupFile ∧
    ((fileWrite d t).state).inTransaction = t.inTransaction := by
  cases d with
  | nonJson tag => exact ⟨rfl, rfl⟩
  | jv v => cases hcw : t.canWrite <;> simp [fileWrite, hcw, Outcome.state]

/-- A sequence of file writes leaves the backup file unchanged. -/
theorem applyFileWrites_backup (ds : List PyObj) :
    ∀ s : FileState, (applyFileWrites ds s).backupFile = s.backupFile := by
  induction ds with
  | nil => intro s; rfl
  | cons d ds ih =>
    intro s
    exact (ih (fileWrite d s).state).trans (fileWrite_state_fields d s).1

/-- A sequence of file writes leaves the transaction flag unchanged. -/
theorem applyFileWrites_flag (ds : List PyObj) :
    ∀ s : FileState, (applyFileWrites ds s).inTransaction = s.inTransaction := by
  induction ds with
  | nil => intro s; rfl
  | cons d ds ih =>
    intro s
    exact (ih (fileWrite d s).state).trans (fileWrite_state_fields d s).2

/-- Inversion of a successful `begin` on `MemoryStorage`: the post-state
keeps the snapshot, stores its deep copy as the backup, and is flagged
in-transaction. -/
theorem memBegin_ok_inv :
    ∀ {s s1 : MemState}, s.inTransaction = false →
      Storage.begin memoryStorage s = .ok s1 →
      s1 = ⟨s.memory, s.memory, true⟩ := by
  intro s s1 h0 h
  obtain ⟨m, b, f⟩ := s
  cases h0
  cases m with
  | none =>
    rw [show Storage.begin memoryStorage ⟨none, b, false⟩
          = .ok ⟨none, none, true⟩ from rfl] at h
    cases h
    rfl
  | some o =>
    cases o with
    | jv v =>
      rw [show Storage.begin memoryStorage ⟨some (.jv v), b, false⟩
            = .ok ⟨some (.jv v), some (.jv v), true⟩ from rfl] at h
      cases h
      rfl
    | nonJson tag =>
      rw [show Storage.begin memoryStorage ⟨some (.nonJson tag), b, false⟩
            = .raised .typeError ⟨some (.nonJson tag), b, true⟩ from rfl] at h
      cases h

/-- A successful `begin` on `JSONStorage`: the lock is acquired, the file
content is copied into the backup file, and the instance is flagged
in-transaction. -/
theorem fileBegin_eq (s : FileState) (h0 : s.inTransaction = false) :
    Storage.begin jsonStorage s
      = .ok ⟨s.content, some s.content, true, s.canWrite, true⟩ := by
  obtain ⟨c, bf, lk, cw, f⟩ := s
  cases h0
  rfl

/-- `rollback` on an in-transaction `MemoryStorage` restores the backup as
the snapshot, discards the backup, and clears the flag. -/
theorem memRollback_eq (t : MemState) (ht : t.inTransaction = true) :
    Storage.rollback memoryStorage t = .ok ⟨t.backup, none, false⟩ := by
  obtain ⟨m, b, f⟩ := t
  cases ht
  rfl

/-- `rollback` on an in-transaction `JSONStorage` whose backup file is
present rewrites the database file with the backup content, deletes the
backup file, releases the lock, and clears the flag. -/
theorem fileRollback_eq (t : FileState) (c : FileContent)
    (ht : t.inTransaction = true) (hb : t.backupFile = some c) :
    Storage.rollback jsonStorage t = .ok ⟨c, none, false, t.canWrite, false⟩ := by
  obtain ⟨ct, bf, lk, cw, f⟩ := t
  cases ht
  cases hb
  rfl

/-- `JSONStorage.read` depends only on the file content. -/
theorem fileRead_only_content (a b : FileState) (h : a.content = b.content) :
    fileRead a = fileRead b := by
  unfold fileRead
  rw [h]

/-- `json.load` hands a serialized snapshot back unchanged: a snapshot is
a JSON object, never the document `null`. -/
theorem topLevelPy_eq_some {v : JValue} (hv : isSnapshot v = true) :
    topLevelPy v = some v := by
  cases v with
  | null => exact Bool.noConfusion hv
  | bool b => rfl
  | num n => rfl
  | str s => rfl
  | arr xs => rfl
  | obj fs => rfl

/-! ## Claims -/

/-- C1: for every storage (file-backed or in-memory), if a transaction is
begun, any sequence of writes is performed, and the transaction is then
rolled back — directly, or because the transaction scope's block raised —
the snapshot returned by a subsequent read is structurally equal to the
snapshot visible immediately before `begin`. -/
theorem c1_rollback_restores :
    (∀ (s s1 : MemState) (ds : List PyObj),
       s.inTransaction = false →
       Storage.begin memoryStorage s = .ok s1 →
       (Storage.rollback memoryStorage (applyMemWrites ds s1)).state.read
         = MemState.read s)
    ∧ (∀ (s s1 : FileState) (ds : List PyObj),
       s.inTransaction = false →
       Storage.begin jsonStorage s = .ok s1 →
       fileRead (Storage.rollback jsonStorage (applyFileWrites ds s1)).state
         = fileRead s)
    ∧ (∀ (s s1 : MemState) (ds : List PyObj) (k : Nat),
       s.inTransaction = false →
       Storage.begin memoryStorage s = .ok s1 →
       (Storage.transaction memoryStorage
          (fun t => .raised (.userError k) (applyMemWrites ds t)) s).state.read
         = MemState.read s)
    ∧ (∀ (s : FileState) (ds : List PyObj) (k : Nat),
       s.inTransaction = false →
       fileRead (Storage.transaction jsonStorage
          (fun t => .raised (.userError k) (applyFileWrites ds t)) s).state
         = fileRead s) := by
  refine ⟨?_, ?_, ?_, ?_⟩
  · intro s s1 ds h0 h
    have hs1 := memBegin_ok_inv h0 h
    subst hs1
    have hf : (applyMemWrites ds ⟨s.memory, s.memory, true⟩).inTransaction = true :=
      applyMemWrites_flag ds _
    rw [memRollback_eq _ hf]
    simp [Outcome.state, MemState.read, applyMemWrites_backup]
  · intro s s1 ds h0 h
    rw [fileBegin_eq s h0] at h
    cases h
    have hf : (applyFileWrites ds
        ⟨s.content, some s.content, true, s.canWrite, true⟩).inTransaction = true :=
      applyFileWrites_flag ds _
    have hb : (applyFileWrites ds
        ⟨s.content, some s.content, true, s.canWrite, true⟩).backupFile
        = some s.content := applyFileWrites_backup ds _
    rw [fileRollback_eq _ s.content hf hb]
    exact fileRead_only_content _ _ rfl
  · intro s s1 ds k h0 h
    have hs1 := memBegin_ok_inv h0 h
    have hf : (applyMemWrites ds s1).inTransaction = true := by
      rw [hs1]; exact applyMemWrites_flag ds _
    simp only [Storage.transaction, h, memRollback_eq _ hf]
    simp [Outcome.state, MemState.read, applyMemWrites_backup, hs1]
  · intro s ds k h0
    have hf : (applyFileWrites ds
        ⟨s.content, some s.content, true, s.canWrite, true⟩).inTransaction = true :=
      applyFileWrites_flag ds _
    have hb : (applyFileWrites ds
        ⟨s.content, some s.content, true, s.canWrite, true⟩).backupFile
        = some s.content := applyFileWrites_backup ds _
    simp only [Storage.transaction, fileBegin_eq s h0, fileRollback_eq _ s.content hf hb]
    exact fileRead_only_content _ _ rfl

/-- Witness for C1: the spec's own scenario — write
`{"_default": {"1": {"name": "a"}}}`, begin, write
`{"_default": {"1": {"name": "b"}}}`, rollback, and read returns the
original snapshot; likewise on the file backend. -/
theorem c1_rollback_restores_witness :
    (Storage.rollback memoryStorage (applyMemWrites
        [PyObj.jv (JValue.obj [("_default", JValue.obj [("1",
           JValue.obj [("name", JValue.str "b")])])])]
        ⟨some (PyObj.jv (JValue.obj [("_default", JValue.obj [("1",
           JValue.obj [("name", JValue.str "a")])])])),
         some (PyObj.jv (JValue.obj [("_default", JValue.obj [("1",
           JValue.obj [("name", JValue.str "a")])])])),
         true⟩)).state.read
      = MemState.read ⟨some (PyObj.jv (JValue.obj [("_default", JValue.obj [("1",
           JValue.obj [("name", JValue.str "a")])])])), none, false⟩
    ∧ fileRead (Storage.rollback jsonStorage (applyFileWrites
        [PyObj.jv (JValue.obj [("t", JValue.obj [])])]
        ⟨.jsonText (JValue.obj []), some (.jsonText (JValue.obj [])),
         true, true, true⟩)).state
      = fileRead ⟨.jsonText (JValue.obj []), none, false, true, false⟩ :=
  ⟨c1_rollback_restores.1 _ _ _ rfl rfl,
   c1_rollback_restores.2.1 _ _ _ rfl rfl⟩

/-- C2: for every JSON-compatible snapshot S, `write(S)` followed by
`read()` with no intervening write returns a value structurally equal to
S, on both backends; for the file backend this holds for any previous file
content, including content longer than the new serialization, because
`write` truncates at the end of the new data. -/
theorem c2_write_read_roundtrip :
    (∀ (s : MemState) (v : JValue), isSnapshot v = true →
       MemState.read (MemState.write (.jv v) s) = some (.jv v))
    ∧ (∀ (s s1 : FileState) (v : JValue), isSnapshot v = true →
       s.canWrite = true → fileWrite (.jv v) s = .ok s1 →
       fileRead s1 = .ok (some v)) := by
  constructor
  · intro s v _
    rfl
  · intro s s1 v hv hcw hw
    simp only [fileWrite, hcw, if_true] at hw
    cases hw
    simp [fileRead, topLevelPy_eq_some hv]

/-- Witness for C2: writing `{"t": {"1": {}}}` over a strictly longer
previous file content, then reading, returns the written snapshot; same
on the memory backend. -/
theorem c2_write_read_roundtrip_witness :
    MemState.read (MemState.write
        (.jv (JValue.obj [("t", JValue.obj [("1", JValue.obj [])])]))
        ⟨none, none, false⟩)
      = some (.jv (JValue.obj [("t", JValue.obj [("1", JValue.obj [])])]))
    ∧ fileRead ⟨.jsonText (JValue.obj [("t", JValue.obj [("1", JValue.obj [])])]),
        none, false, true, false⟩
      = .ok (some (JValue.obj [("t", JValue.obj [("1", JValue.obj [])])])) :=
  ⟨c2_write_read_roundtrip.1 ⟨none, none, false⟩ _ rfl,
   c2_write_read_roundtrip.2
     ⟨.jsonText (JValue.obj [("t", JValue.obj [("1",
        JValue.obj [("payload", JValue.str "a much longer previous content")])])]),
      none, false, true, false⟩
     _ _ rfl rfl rfl⟩

/-- C3 counterexample: a storage whose backend commit hook raises an I/O
fault.  The caller's block completes normally, the helper's bare `except`
catches the commit error and calls `rollback()`, but `commit` already
cleared the flag in its `finally`, so `rollback()` raises the
`RuntimeError` "No transaction in progress", which propagates in place of
the original I/O fault: the original error is replaced, refuting the
claim that no error is ever replaced on this path. -/
theorem c3_scope_counterexample :
    (failingCommitStorage.commitTransaction ⟨none, none, true⟩).exc
        = some (.ioError "disk error")
    ∧ (Storage.transaction failingCommitStorage Outcome.ok ⟨none, none, false⟩).exc
        = some (.runtimeError "No transaction in progress")
    ∧ Exc.ioError "disk error" ≠ Exc.runtimeError "No transaction in progress" :=
  ⟨rfl, rfl, fun h => Exc.noConfusion h⟩

/-- C3 (amended): the scoped helper begins, runs the block, and commits on
normal completion; when the block raises and `rollback` returns normally,
the original error is re-raised untouched; but when the backend commit or
rollback logic itself raises, the error surfaced to the caller is the one
raised by that later `rollback` call, replacing the original. -/
theorem c3_scope_commit_or_reraise :
    ∀ (σ : Type) (st : Storage σ) (s s1 : σ) (body : σ → Outcome σ),
      st.begin s = .ok s1 →
      (∀ s2 s3, body s1 = .ok s2 → Storage.commit st s2 = .ok s3 →
         Storage.transaction st body s = .ok s3)
      ∧ (∀ e s2 s4, body s1 = .raised e s2 → Storage.rollback st s2 = .ok s4 →
         Storage.transaction st body s = .raised e s4)
      ∧ (∀ e s2 e2 s4, body s1 = .raised e s2 →
         Storage.rollback st s2 = .raised e2 s4 →
         Storage.transaction st body s = .raised e2 s4) := by
  intro σ st s s1 body hbg
  refine ⟨?_, ?_, ?_⟩
  · intro s2 s3 hb hc
    simp [Storage.transaction, hbg, hb, hc]
  · intro e s2 s4 hb hr
    simp [Storage.transaction, hbg, hb, hr]
  · intro e s2 e2 s4 hb hr
    simp [Storage.transaction, hbg, hb, hr]

/-- Witness for the amended C3: on a `MemoryStorage`, a block that raises
`userError 7` is rolled back and the same `userError 7` is re-raised. -/
theorem c3_scope_commit_or_reraise_witness :
    Storage.transaction memoryStorage (fun t => .raised (.userError 7) t)
        ⟨none, none, false⟩
      = .raised (.userError 7) ⟨none, none, false⟩ :=
  (c3_scope_commit_or_reraise MemState memoryStorage ⟨none, none, false⟩
      ⟨none, none, true⟩ (fun t => .raised (.userError 7) t) rfl).2.1
    (.userError 7) ⟨none, none, true⟩ ⟨none, none, false⟩ rfl rfl

/-- C4: for every storage with a transaction open, `commit` and `rollback`
leave the in-transaction flag cleared when they return, including when the
backend commit or rollback hook raises: the flag is cleared in a `finally`
block on both the normal and the exceptional completion. -/
theorem c4_flag_always_cleared :
    ∀ (σ : Type) (st : Storage σ),
      (∀ (b : Bool) (t : σ), st.inTransaction (st.setInTransaction b t) = b) →
      ∀ s : σ, st.inTransaction s = true →
        st.inTransaction (Storage.commit st s).state = false ∧
        st.inTransaction (Storage.rollback st s).state = false := by
  intro σ st hlaw s h
  constructor
  · unfold Storage.commit
    rw [h]
    cases hc : st.commitTransaction s <;> simp [Outcome.state, hlaw]
  · unfold Storage.rollback
    rw [h]
    cases hc : st.rollbackTransaction s <;> simp [Outcome.state, hlaw]

/-- Witness for C4: on the storage whose commit hook raises an I/O fault,
`commit` and `rollback` still return with the flag cleared. -/
theorem c4_flag_always_cleared_witness :
    failingCommitStorage.inTransaction
        (Storage.commit failingCommitStorage ⟨none, none, true⟩).state = false
    ∧ failingCommitStorage.inTransaction
        (Storage.rollback failingCommitStorage ⟨none, none, true⟩).state = false :=
  c4_flag_always_cleared MemState failingCommitStorage (fun _ _ => rfl)
    ⟨none, none, true⟩ rfl

/-- C5: for every storage with no transaction open, `commit` and
`rollback` raise the `RuntimeError` "No transaction in progress" with the
whole state — in particular the persisted snapshot and the flag —
unchanged, and without invoking any backend hook (the result does not
depend on the hooks at all). -/
theorem c5_commit_rollback_require_transaction :
    ∀ (σ : Type) (st : Storage σ) (s : σ), st.inTransaction s = false →
      Storage.commit st s = .raised (.runtimeError "No transaction in progress") s
      ∧ Storage.rollback st s
          = .raised (.runtimeError "No transaction in progress") s := by
  intro σ st s h
  constructor
  · simp [Storage.commit, h]
  · simp [Storage.rollback, h]

/-- Witness for C5: a fresh `MemoryStorage` rejects `commit`, and a fresh
`JSONStorage` rejects `rollback`, leaving their states untouched. -/
theorem c5_commit_rollback_require_transaction_witness :
    Storage.commit memoryStorage ⟨none, none, false⟩
      = .raised (.runtimeError "No transaction in progress") ⟨none, none, false⟩
    ∧ Storage.rollback jsonStorage ⟨.empty, none, false, true, false⟩
      = .raised (.runtimeError "No transaction in progress")
          ⟨.empty, none, false, true, false⟩ :=
  ⟨(c5_commit_rollback_require_transaction MemState memoryStorage
      ⟨none, none, false⟩ rfl).1,
   (c5_commit_rollback_require_transaction FileState jsonStorage
      ⟨.empty, none, false, true, false⟩ rfl).2⟩

/-- C6: for every storage with a transaction already open, a second
`begin` raises the `RuntimeError` "Transaction already in progress" with
the whole state — flag, backup, lock — unchanged, and without invoking the
backend start hook. -/
theorem c6_no_nested_begin :
    ∀ (σ : Type) (st : Storage σ) (s : σ), st.inTransaction s = true →
      Storage.begin st s
        = .raised (.runtimeError "Transaction already in progress") s := by
  intro σ st s h
  simp [Storage.begin, h]

/-- Witness for C6: a second `begin` on an in-transaction `MemoryStorage`
and on an in-transaction `JSONStorage` both fail with the state
unchanged. -/
theorem c6_no_nested_begin_witness :
    Storage.begin memoryStorage ⟨some (.jv (JValue.obj [])), some (.jv (JValue.obj [])), true⟩
      = .raised (.runtimeError "Transaction already in progress")
          ⟨some (.jv (JValue.obj [])), some (.jv (JValue.obj [])), true⟩
    ∧ Storage.begin jsonStorage ⟨.empty, some .empty, true, true, true⟩
      = .raised (.runtimeError "Transaction already in progress")
          ⟨.empty, some .empty, true, true, true⟩ :=
  ⟨c6_no_nested_begin MemState memoryStorage _ rfl,
   c6_no_nested_begin FileState jsonStorage _ rfl⟩

/-- C7 counterexample: a non-empty file whose content is the four-byte
JSON document `null`.  `read` does not raise and returns `None` — the same
value as the absent marker — even though the file is not empty, refuting
the "exactly when the file is empty" direction of the claim. -/
theorem c7_read_absent_counterexample :
    fileRead nullFile = .ok none ∧ nullFile.content ≠ .empty :=
  ⟨rfl, fun h => FileContent.noConfusion h⟩

/-- C7 (amended): `read` returns absent on an empty (zero-byte) file
without raising; on a non-empty file it deserializes the full content,
raising a deserialization fault on malformed content rather than returning
absent; but absence does not imply emptiness: a non-empty file holding the
JSON document `null` also makes `read` return `None`. -/
theorem c7_read_empty_absent :
    ∀ s : FileState,
      (s.content = .empty → fileRead s = .ok none)
      ∧ (∀ t, s.content = .malformed t → fileRead s = .error .jsonDecodeError)
      ∧ (∀ v, s.content = .jsonText v → v ≠ .null → fileRead s = .ok (some v))
      ∧ (fileRead s = .ok none →
          s.content = .empty ∨ s.content = .jsonText .null) := by
  intro s
  refine ⟨?_, ?_, ?_, ?_⟩
  · intro h
    rw [fileRead_only_content s ⟨.empty, none, false, true, false⟩ h]
    rfl
  · intro t h
    rw [fileRead_only_content s ⟨.malformed t, none, false, true, false⟩ h]
    rfl
  · intro v h hv
    rw [fileRead_only_content s ⟨.jsonText v, none, false, true, false⟩ h]
    cases v with
    | null => exact absurd rfl hv
    | bool b => rfl
    | num n => rfl
    | str s => rfl
    | arr xs => rfl
    | obj fs => rfl
  · intro h
    cases hc : s.content with
    | empty => exact Or.inl rfl
    | jsonText v =>
      rw [fileRead_only_content s ⟨.jsonText v, none, false, true, false⟩ hc] at h
      cases v with
      | null => exact Or.inr rfl
      | bool b => exact absurd h (by simp [fileRead, topLevelPy])
      | num n => exact absurd h (by simp [fileRead, topLevelPy])
      | str s => exact absurd h (by simp [fileRead, topLevelPy])
      | arr xs => exact absurd h (by simp [fileRead, topLevelPy])
      | obj fs => exact absurd h (by simp [fileRead, topLevelPy])
    | malformed t =>
      rw [fileRead_only_content s ⟨.malformed t, none, false, true, false⟩ hc] at h
      exact absurd h (by simp [fileRead])

/-- Witness for the amended C7: an empty file reads as absent, a malformed
file raises a deserialization fault, and a file holding `{"t": {}}` reads
back that snapshot. -/
theorem c7_read_empty_absent_witness :
    fileRead ⟨.empty, none, false, true, false⟩ = .ok none
    ∧ fileRead ⟨.malformed 0, none, false, true, false⟩ = .error .jsonDecodeError
    ∧ fileRead ⟨.jsonText (JValue.obj [("t", JValue.obj [])]), none, false, true, false⟩
        = .ok (some (JValue.obj [("t", JValue.obj [])])) :=
  ⟨(c7_read_empty_absent ⟨.empty, none, false, true, false⟩).1 rfl,
   (c7_read_empty_absent ⟨.malformed 0, none, false, true, false⟩).2.1 0 rfl,
   (c7_read_empty_absent
      ⟨.jsonText (JValue.obj [("t", JValue.obj [])]), none, false, true, false⟩).2.2.1
     (JValue.obj [("t", JValue.obj [])]) rfl (fun h => JValue.noConfusion h)⟩

/-- C8: on a file backend opened read-only, every `write` of a
serializable value raises the write-rejected `IOError` and leaves the
whole state — in particular the file content — unchanged. -/
theorem c8_readonly_write_rejected :
    ∀ (s : FileState) (v : JValue), s.canWrite = false →
      fileWrite (.jv v) s = .raised (.ioError "Cannot write to the database") s := by
  intro s v h
  simp [fileWrite, h]

/-- Witness for C8: writing `{"t": {}}` to a read-only `JSONStorage` over
a non-empty file raises the write-rejected error and the content stays. -/
theorem c8_readonly_write_rejected_witness :
    fileWrite (.jv (JValue.obj [("t", JValue.obj [])]))
        ⟨.jsonText (JValue.obj []), none, false, false, false⟩
      = .raised (.ioError "Cannot write to the database")
          ⟨.jsonText (JValue.obj []), none, false, false, false⟩ :=
  c8_readonly_write_rejected ⟨.jsonText (JValue.obj []), none, false, false, false⟩
    (JValue.obj [("t", JValue.obj [])]) rfl

/-- C9: `__enter__` and `__exit__` each build a fresh transaction scope.
`__enter__` runs `begin`; a later `__exit__` with no exception advances a
second, fresh scope, which runs `begin` again and raises the
`RuntimeError` "Transaction already in progress", leaving the state — and
with it the transaction opened by `__enter__`, neither committed nor
rolled back — unchanged. -/
theorem c9_enter_exit_fresh_scopes :
    ∀ (σ : Type) (st : Storage σ) (s s1 : σ),
      Storage.enter st s = .ok s1 → st.inTransaction s1 = true →
      Storage.exitNone st s1
        = .raised (.runtimeError "Transaction already in progress") s1 := by
  intro σ st s s1 _ h1
  simp [Storage.exitNone, Storage.begin, h1]

/-- Witness for C9: entering a fresh `MemoryStorage` begins a transaction;
the matching `__exit__` then raises "Transaction already in progress" and
leaves that transaction open. -/
theorem c9_enter_exit_fresh_scopes_witness :
    Storage.exitNone memoryStorage ⟨some (.jv (JValue.obj [])), some (.jv (JValue.obj [])), true⟩
      = .raised (.runtimeError "Transaction already in progress")
          ⟨some (.jv (JValue.obj [])), some (.jv (JValue.obj [])), true⟩ :=
  c9_enter_exit_fresh_scopes MemState memoryStorage
    ⟨some (.jv (JValue.obj [])), none, false⟩
    ⟨some (.jv (JValue.obj [])), some (.jv (JValue.obj [])), true⟩ rfl rfl

/-- C10: `begin` sets the in-transaction flag before running the backend
start hook and has no `finally` to clear it: if the hook raises, the error
propagates with the flag still set, so every later `begin` raises
"Transaction already in progress" until `commit` or `rollback` runs.
Concretely, `MemoryStorage._begin_transaction` raises `TypeError` on a
non-serializable snapshot and the instance stays marked in-transaction. -/
theorem c10_begin_failure_leaves_flag_set :
    (∀ (σ : Type) (st : Storage σ) (s s1 : σ) (e : Exc),
       st.inTransaction s = false →
       st.beginTransaction (st.setInTransaction true s) = .raised e s1 →
       Storage.begin st s = .raised e s1
       ∧ (st.inTransaction s1 = true →
           Storage.begin st s1
             = .raised (.runtimeError "Transaction already in progress") s1))
    ∧ (∀ (b : Option PyObj) (t : Nat),
       Storage.begin memoryStorage ⟨some (.nonJson t), b, false⟩
         = .raised .typeError ⟨some (.nonJson t), b, true⟩
       ∧ Storage.begin memoryStorage ⟨some (.nonJson t), b, true⟩
         = .raised (.runtimeError "Transaction already in progress")
             ⟨some (.nonJson t), b, true⟩) := by
  constructor
  · intro σ st s s1 e h0 hb
    constructor
    · unfold Storage.begin
      rw [h0]
      exact hb
    · intro h1
      simp [Storage.begin, h1]
  · intro b t
    exact ⟨rfl, rfl⟩

/-- Witness for C10: a `MemoryStorage` holding a non-serializable object —
`begin` raises `TypeError`, the flag stays set, and a second `begin` fails
with "Transaction already in progress". -/
theorem c10_begin_failure_leaves_flag_set_witness :
    Storage.begin memoryStorage ⟨some (.nonJson 0), none, false⟩
      = .raised .typeError ⟨some (.nonJson 0), none, true⟩
    ∧ Storage.begin memoryStorage ⟨some (.nonJson 0), none, true⟩
      = .raised (.runtimeError "Transaction already in progress")
          ⟨some (.nonJson 0), none, true⟩ :=
  ⟨(c10_begin_failure_leaves_flag_set.1 MemState memoryStorage
      ⟨some (.nonJson 0), none, false⟩ ⟨some (.nonJson 0), none, true⟩
      .typeError rfl rfl).1,
   (c10_begin_failure_leaves_flag_set.2 none 0).2⟩
